import Mathlib

/-!
Verification of the goldengooseAPI backend (Node/Express + Mongoose) against its
natural-language specification.  Each controller fragment relevant to the checked
claims is shallowly embedded as an executable Lean definition: JS numbers are
modelled as exact rationals, query-string fields as Option String (absent vs
present), the document store as association lists keyed by id, and the
best-effort side effects (email send, audit-log write) as explicit success
flags.  JS-specific semantics that decide several claims are modelled
explicitly: string falsiness (undefined and the empty string are falsy),
duplicate keys in object literals (the last assignment wins), and reading an
undeclared identifier (a ReferenceError that propagates to the nearest catch).
-/

/-! ## JavaScript primitives -/

/-- JS truthiness of a possibly-absent string: undefined and the empty string
are falsy, every other string is truthy. -/
def jsTruthy (v : Option String) : Bool := !(v.getD "" == "")

/-- JS logical OR of two possibly-absent strings, as in q.payout OR q.amount:
yields the left operand when it is truthy, otherwise the right operand. -/
def jsOr (a b : Option String) : Option String := if jsTruthy a then a else b

/-- JS logical OR against a literal default string, as in title OR defaultTitle. -/
def jsOrStr (a : Option String) (b : String) : String :=
  if jsTruthy a then a.getD "" else b

/-- JS String.prototype.toLowerCase restricted to the ASCII range used by the
repository (network names, ISO country codes, email addresses). -/
def jsToLower (s : String) : String := ⟨s.data.map Char.toLower⟩

/-- JS String.prototype.toUpperCase restricted to the ASCII range used by the
repository. -/
def jsToUpper (s : String) : String := ⟨s.data.map Char.toUpper⟩

/-- JS String.prototype.trim: strips leading and trailing whitespace. -/
def jsTrim (s : String) : String :=
  ⟨((s.data.dropWhile Char.isWhitespace).reverse.dropWhile Char.isWhitespace).reverse⟩

/-- JS Number.prototype.toFixed(1) composed with parseFloat, on the nonnegative
numbers produced by the rating controller: round to the nearest tenth, ties
rounding up (ECMA toFixed picks the larger candidate on a tie). -/
def round1 (q : ℚ) : ℚ := (⌊q * 10 + 1/2⌋ : ℚ) / 10

/-! ## Catalog rating update (controllers/appController.js lines 506-554) -/

/-- The pair of fields of an App document read and written by updateAppRating. -/
structure RatingState where
  rating : ℚ
  totalRatings : ℕ
deriving DecidableEq

/-- updateAppRating (controllers/appController.js lines 506-554): reject a
falsy or out-of-range rating with a 400 (state unchanged, flag false),
otherwise recompute the running average
(app.rating * app.totalRatings + rating) / (app.totalRatings + 1),
store it rounded to one decimal via parseFloat(x.toFixed(1)), and increment
totalRatings. -/
def updateAppRating (st : RatingState) (rating : ℚ) : Bool × RatingState :=
  if rating = 0 ∨ rating < 0 ∨ rating > 5 then (false, st)
  else
    (true, ⟨round1 ((st.rating * (st.totalRatings : ℚ) + rating) / ((st.totalRatings : ℚ) + 1)),
            st.totalRatings + 1⟩)

/-- A sequence of rate-update requests applied in order to one App document. -/
def runRatings (st : RatingState) (rs : List ℚ) : RatingState :=
  rs.foldl (fun s r => (updateAppRating s r).2) st

/-! ## Usage increment (controllers/appController.js lines 458-501 and
controllers/couponController.js lines 470-513) -/

/-- The pair of fields of a catalog document read and written by the two
usage-increment handlers. -/
structure UsageDoc where
  itemsLeft : ℤ
  usedToday : ℤ
deriving DecidableEq

/-- Response of a usage-increment handler. -/
inductive UsageResp
  | notFound404
  | noItemsLeft400
  | incremented200
deriving DecidableEq

/-- incrementAppUsage (controllers/appController.js lines 458-501): 404 when the
document is missing; 400 and no write when itemsLeft is not positive; otherwise
one atomic update decrementing itemsLeft and incrementing usedToday. -/
def incrementAppUsage : Option UsageDoc → UsageResp × Option UsageDoc
  | none => (.notFound404, none)
  | some app =>
      if app.itemsLeft ≤ 0 then (.noItemsLeft400, some app)
      else (.incremented200, some ⟨app.itemsLeft - 1, app.usedToday + 1⟩)

/-- incrementCouponUsage (controllers/couponController.js lines 470-513): the
same logic as incrementAppUsage, duplicated in the source for coupons. -/
def incrementCouponUsage : Option UsageDoc → UsageResp × Option UsageDoc
  | none => (.notFound404, none)
  | some coupon =>
      if coupon.itemsLeft ≤ 0 then (.noItemsLeft400, some coupon)
      else (.incremented200, some ⟨coupon.itemsLeft - 1, coupon.usedToday + 1⟩)

/-- n successive usage-increment calls against one App document. -/
def runAppUsage (st : Option UsageDoc) : ℕ → Option UsageDoc
  | 0 => st
  | n + 1 => runAppUsage (incrementAppUsage st).2 n

/-- n successive usage-increment calls against one Coupon document. -/
def runCouponUsage (st : Option UsageDoc) : ℕ → Option UsageDoc
  | 0 => st
  | n + 1 => runCouponUsage (incrementCouponUsage st).2 n

/-- itemsLeft of a possibly-missing document, 0 when missing. -/
def optItemsLeft : Option UsageDoc → ℤ
  | none => 0
  | some a => a.itemsLeft

/-! ## Limited-stock listing (controllers/appController.js lines 606-647) -/

/-- A MongoDB comparison condition on one numeric field. -/
inductive NumCond
  | lte (bound : ℚ)
  | gt (bound : ℚ)
deriving DecidableEq

/-- Satisfaction of a comparison condition by a field value. -/
def NumCond.holds : NumCond → ℚ → Bool
  | .lte b, x => decide (x ≤ b)
  | .gt b, x => decide (b < x)

/-- Insertion of a key into a JS object literal: a duplicate key keeps its
original position but its value is overwritten by the later assignment
(the last assignment wins). -/
def objInsert (key : String) (v : NumCond) :
    List (String × NumCond) → List (String × NumCond)
  | [] => [(key, v)]
  | (k, w) :: rest =>
      if k == key then (k, v) :: rest else (k, w) :: objInsert key v rest

/-- The itemsLeft conditions of the query object literal in getLimitedStockApps
(controllers/appController.js lines 614-618 and 624-628): the literal writes
the key itemsLeft twice, first with a lte bound of maxItemsLeft and then with
a gt bound of 0, so the object carries only the second condition. -/
def limitedStockItemsLeftConds (maxItemsLeft : ℚ) : List (String × NumCond) :=
  objInsert "itemsLeft" (.gt 0) (objInsert "itemsLeft" (.lte maxItemsLeft) [])

/-- Whether one App document matches the getLimitedStockApps filter.  The
handler additionally sorts, skips and limits the matching documents, which
only reorders and subsets the result, so membership in the response is
membership in this filter. -/
def limitedStockMatches (maxItemsLeft : ℚ) (verified : Bool) (itemsLeft : ℚ) : Bool :=
  verified && (limitedStockItemsLeftConds maxItemsLeft).all (fun kc => kc.2.holds itemsLeft)

/-! ## Click tracking (src/unnamed/part_005, appController variant, lines 696-790) -/

/-- One element of the clicks array embedded in a catalog document, restricted
to the fields the uniqueness query reads.  Dates are millisecond timestamps. -/
structure Click where
  ip : String
  sessionId : String
  date : ℤ
deriving DecidableEq

/-- The fields of an App document read and written by updateAppClicks. -/
structure ClickState where
  clicks : List Click
  totalClicks : ℕ
  uniqueClicks : ℕ
deriving DecidableEq

/-- The uniqueness lookup of updateAppClicks (src/unnamed/part_005 lines
741-746): a findOne whose filter places three separate dotted conditions on the
clicks array with no elemMatch, so under MongoDB semantics each condition is
satisfied independently by some (possibly different) array element. -/
def clicksDotQueryMatches (st : ClickState) (ip sessionId : String) (cutoff : ℤ) : Bool :=
  (st.clicks.any fun c => c.ip == ip) &&
  (st.clicks.any fun c => c.sessionId == sessionId) &&
  (st.clicks.any fun c => decide (cutoff ≤ c.date))

/-- updateAppClicks (src/unnamed/part_005 lines 696-790): computes isUnique as
the negation of the uniqueness lookup over the trailing 24 hours, then pushes
the click, always increments totalClicks, and increments uniqueClicks only for
a unique click.  Returns the updated state and the isUnique flag of the
response body. -/
def updateAppClicks (st : ClickState) (ip sessionId : String) (now : ℤ) : ClickState × Bool :=
  let twentyFourHoursAgo := now - 24 * 60 * 60 * 1000
  let isUnique := !(clicksDotQueryMatches st ip sessionId twentyFourHoursAgo)
  (⟨st.clicks ++ [⟨ip, sessionId, now⟩],
    st.totalClicks + 1,
    st.uniqueClicks + (if isUnique then 1 else 0)⟩, isUnique)

/-! ## Offer resolution (controllers/offersController.js lines 101-147) and
offer access logging (src/unnamed/part_013 lines 145-173) -/

/-- The country-specific links of an Offer document (model/Offers.js). -/
structure OfferLinks where
  ghana : String
  kenya : String
  nigeria : String
deriving DecidableEq

/-- An Offer document, restricted to the fields getOffer reads. -/
structure OfferDoc where
  id : String
  title : String
  active : Bool
  links : OfferLinks
deriving DecidableEq

/-- The geolocation fields of a successful geoip lookup that getOffer reads. -/
structure Geo where
  country : String
  city : String
deriving DecidableEq

/-- Response of getOffer.  geoFail is the 400 for a failed geo lookup,
offerNotFound and noLink are the two 404 branches, resolved is the 200 body
with its message and link, serverError is the catch-all 500 of lines 144-146. -/
inductive GetOfferResp
  | geoFail400
  | offerNotFound404
  | noLink404
  | resolved (message link : String)
  | serverError500
deriving DecidableEq

/-- One Log document written by logOfferActivity for an offer_access event,
restricted to the detail fields the access log records. -/
structure OfferLogEvent where
  activityType : String
  message : String
  offerId : String
  title : String
  country : String
  city : String
  ip : String
  userAgent : String
deriving DecidableEq

/-- The link selection of getOffer (controllers/offersController.js lines
121-124): let link start undefined, then three independent equality tests on
the lowercased country code each assign the corresponding links field. -/
def selectLink (countryCode : String) (links : OfferLinks) : Option String :=
  let link : Option String := none
  let link := if countryCode == "gh" then some links.ghana else link
  let link := if countryCode == "ke" then some links.kenya else link
  let link := if countryCode == "ng" then some links.nigeria else link
  link

/-- The offer_access event that logOfferActivity (src/unnamed/part_013 lines
145-173) writes for the call at controllers/offersController.js lines 131-138. -/
def offerAccessEvent (o : OfferDoc) (countryCode city ip userAgent : String) : OfferLogEvent :=
  ⟨"offer_access",
   "Offer accessed: " ++ o.title ++ " from " ++ jsToUpper countryCode,
   o.id, o.title, jsToUpper countryCode, city, ip, userAgent⟩

/-- getOffer (controllers/offersController.js lines 101-147).  Inputs: the
offer found by the id lookup or the latest-offer fallback (none when neither
exists), the geoip result (none when the lookup returned nothing), the client
ip and user agent, and logOk, which models whether the awaited Log.create
inside logOfferActivity succeeds.  logOfferActivity has no try/catch of its
own (src/unnamed/part_013 lines 145-173), and getOffer awaits it before
responding, so a rejected log write is caught by the catch of lines 144-146
and answered with the 500 branch.  Returns the response and the list of
access-log events written. -/
def getOffer (offer : Option OfferDoc) (geo : Option Geo) (ip userAgent : String)
    (logOk : Bool) : GetOfferResp × List OfferLogEvent :=
  match geo with
  | none => (.geoFail400, [])
  | some g =>
      let countryCode := jsToLower g.country
      match offer with
      | none => (.offerNotFound404, [])
      | some o =>
          let link := selectLink countryCode o.links
          if !(jsTruthy link) then (.noLink404, [])
          else if logOk then
            (.resolved ("Offer link for " ++ jsToUpper countryCode) (link.getD ""),
             [offerAccessEvent o countryCode g.city ip userAgent])
          else (.serverError500, [])

/-! ## Subscriber creation (src/unnamed/part_003 lines 13-76, error classes in
src/unnamed/part_006 lines 34-40) -/

/-- A Subscriber document, restricted to the unique email key. -/
structure SubscriberDoc where
  email : String
deriving DecidableEq

/-- A thrown application error: its constructor name, HTTP status and message. -/
structure JsAppError where
  name : String
  status : ℕ
  message : String
deriving DecidableEq

/-- DuplicateSubscriberError (src/unnamed/part_006 lines 34-40): carries
status 409. -/
def DuplicateSubscriberError (message : String) : JsAppError :=
  ⟨"DuplicateSubscriberError", 409, message⟩

/-- Modelled from the spec: the Express error-handling middleware
(middleware/errorHandler, required by server.js line 7 but not among the
source files) answers a thrown error with a response carrying the status of
the error; spec section 7 lists conflict (duplicate unique key) as 409. -/
def errorHandlerStatus (e : JsAppError) : ℕ := e.status

/-- Outcome of createSubscriber: either a thrown error handed to the error
middleware, or the 201 creation response. -/
inductive CreateSubResult
  | thrown (e : JsAppError)
  | created201 (s : SubscriberDoc)
deriving DecidableEq

/-- createSubscriber (src/unnamed/part_003 lines 13-76): findOne on the raw
request email; on a hit, throw DuplicateSubscriberError before any write; else
create the document with the lowercased and trimmed email.  The audit-log
write after the creation is outside the duplicate path and not modelled. -/
def createSubscriber (store : List SubscriberDoc) (email : String) :
    CreateSubResult × List SubscriberDoc :=
  match store.find? (fun s => s.email == email) with
  | some _ => (.thrown (DuplicateSubscriberError "Email is already subscribed"), store)
  | none =>
      let doc : SubscriberDoc := ⟨jsTrim (jsToLower email)⟩
      (.created201 doc, store ++ [doc])

/-! ## Postback ingestion (controllers/postbackController.js lines 7-143) -/

/-- The query-string bag of a postback request: every field the four network
mappings read, each absent or a string. -/
structure PbQuery where
  userid : Option String
  username : Option String
  user_id : Option String
  user_name : Option String
  subid2 : Option String
  email : Option String
  id : Option String
  offerid : Option String
  offer_id : Option String
  payout : Option String
  amount : Option String
  ip : Option String
  offername : Option String
  offer_name : Option String
deriving DecidableEq

/-- The fields a network mapping extracts.  A mapping that does not set a
field leaves it undefined, which the later destructuring reads as absent. -/
structure ParsedPostback where
  userid : Option String
  username : Option String
  email : Option String
  id : Option String
  offerid : Option String
  payout : Option String
  ip : Option String
  offername : Option String
deriving DecidableEq

/-- parsePostbackData (controllers/postbackController.js lines 7-52): pick the
mapping for the lowercased network name out of the closed set ogads, cpagrip,
cpalead, goose, or throw the unsupported-network error.  Only the goose
mapping extracts email and id; ogads and cpagrip map offerid from q.id. -/
def parsePostbackData (networkName : String) (q : PbQuery) :
    Except String ParsedPostback :=
  if jsToLower networkName == "ogads" then
    .ok ⟨q.userid, q.username, none, none, q.id, q.payout, q.ip, q.offername⟩
  else if jsToLower networkName == "cpagrip" then
    .ok ⟨q.userid, q.username, none, none, q.id, q.payout, q.ip, q.offername⟩
  else if jsToLower networkName == "cpalead" then
    .ok ⟨jsOr q.subid2 (jsOr q.userid q.user_id), jsOr q.username q.user_name, none, none,
         jsOr q.offerid q.offer_id, jsOr q.payout q.amount, q.ip,
         jsOr q.offername q.offer_name⟩
  else if jsToLower networkName == "goose" then
    .ok ⟨none, none, q.email, q.id, jsOr q.offerid q.offer_id, jsOr q.payout q.amount,
         q.ip, jsOr q.offername q.offer_name⟩
  else
    .error ("Unsupported network: " ++ networkName)

/-- An OfferCompletion document (model/offerCompletion.js), restricted to the
fields the postback handler reads and writes. -/
structure CompletionDoc where
  offer : String
  title : Option String
  code : Option String
  email : String
  status : String
  isEmailSent : Bool
deriving DecidableEq

/-- OfferCompletion.findById over a store keyed by document id. -/
def findById (db : List (String × CompletionDoc)) (id : String) : Option CompletionDoc :=
  (db.find? (fun kv => kv.1 == id)).map Prod.snd

/-- OfferCompletion.findByIdAndUpdate of controllers/postbackController.js
lines 105-108: set status to completed and isEmailSent to true. -/
def findByIdAndUpdateCompleted (db : List (String × CompletionDoc)) (id : String) :
    List (String × CompletionDoc) :=
  db.map (fun kv =>
    if kv.1 == id then
      (kv.1, ⟨kv.2.offer, kv.2.title, kv.2.code, kv.2.email, "completed", true⟩)
    else kv)

/-- An error raised by evaluating a JS expression. -/
inductive JsEvalError
  | referenceError (varName : String)
deriving DecidableEq

/-- The local scope of universalPostback after the destructuring at
controllers/postbackController.js line 60: the destructured names email,
payout, offerid and id, plus the path parameter network, are declared.  The
identifiers code (read at line 94) and offername (read at line 127) are
declared nowhere in the function or in the module, so they are absent from the
scope. -/
def postbackScope (network : String) (p : ParsedPostback) :
    String → Option (Option String) :=
  fun v =>
    if v == "network" then some (some network)
    else if v == "email" then some p.email
    else if v == "payout" then some p.payout
    else if v == "offerid" then some p.offerid
    else if v == "id" then some p.id
    else none

/-- Reading an identifier in a scope: an undeclared identifier raises a
ReferenceError, which JS propagates to the nearest enclosing catch. -/
def readVar (scope : String → Option (Option String)) (v : String) :
    Except JsEvalError (Option String) :=
  match scope v with
  | some val => .ok val
  | none => .error (.referenceError v)

/-- A reward email as handed to sendEmail, with the template data of
emailTemplates.taskCompleted (utils/emailService.js lines 52 onward). -/
structure EmailMessage where
  recipient : String
  subject : String
  offer : String
  title : String
  code : String
deriving DecidableEq

/-- The subject line of the taskCompleted template. -/
def taskCompletedSubject (offer : String) : String :=
  "🎉 Task Completed - Your " ++ offer ++ " is Ready!"

/-- The try block of the pending branch (controllers/postbackController.js
lines 90-110).  The first expression evaluated is the argument object of
emailTemplates.taskCompleted; its code field reads the identifier code (line
94), which is undeclared, so evaluation raises a ReferenceError before the
email is built, before sendEmail is called and before the status update.
The error is caught by the catch (emailError) of lines 111-116, which only
logs.  Were the read to succeed, the block would send the templated email
(sendEmail catches provider failures internally and never throws,
utils/emailService.js) and then mark the completion completed. -/
def pendingTryBlock (scope : String → Option (Option String))
    (completion : CompletionDoc) (toEmail : String)
    (db : List (String × CompletionDoc)) (id : String) :
    Except JsEvalError (List (String × CompletionDoc) × List EmailMessage) :=
  (readVar scope "code").bind (fun codeVal =>
    let msg : EmailMessage :=
      ⟨toEmail, taskCompletedSubject completion.offer, completion.offer,
       jsOrStr completion.title "Task Completed", jsOrStr codeVal "N/A"⟩
    .ok (findByIdAndUpdateCompleted db id, [msg]))

/-- Response of universalPostback.  The invalid-id branch answers HTTP 201
with a success false body (the asymmetry of lines 75-80); serverError500 is
the rethrow of lines 140-141 behind the error middleware. -/
inductive PostbackResp
  | unsupportedNetwork400 (message : String)
  | incomplete400
  | invalidId201
  | notFound404
  | success200 (offerid payout : Option String) (network : String) (offername : String)
  | serverError500
deriving DecidableEq

/-- An ASCII hexadecimal digit. -/
def isHexChar (c : Char) : Bool :=
  c.isDigit || (97 ≤ c.toNat && c.toNat ≤ 102) || (65 ≤ c.toNat && c.toNat ≤ 70)

/-- mongoose.Types.ObjectId.isValid on a string argument: a 24-character
hexadecimal string, or any 12-character string (interpreted as 12 bytes). -/
def isValidObjectId (s : String) : Bool :=
  (s.length == 24 && s.data.all isHexChar) || s.length == 12

/-- universalPostback (controllers/postbackController.js lines 55-143).
Control flow translated branch for branch: the unsupported-network throw of
parsePostbackData is caught by the outer catch and answered 400 (lines
133-138); missing email or payout answers 400; a falsy or syntactically
invalid completion id answers 201 with success false; a missing completion
answers 404.  On a pending completion the try block of lines 90-110 runs and
its ReferenceError on code is swallowed by the catch (emailError).  The
success response of lines 120-129 then reads the undeclared identifier
offername, and that ReferenceError reaches the outer catch, whose message
test fails, so the handler ends in the 500 path of lines 140-141.  Returns
the response, the completion store after the request, and the reward emails
sent during the request. -/
def universalPostback (network : String) (q : PbQuery)
    (db : List (String × CompletionDoc)) :
    PostbackResp × List (String × CompletionDoc) × List EmailMessage :=
  match parsePostbackData network q with
  | .error msg => (.unsupportedNetwork400 msg, db, [])
  | .ok parsed =>
      let scope := postbackScope network parsed
      if !(jsTruthy parsed.email) || !(jsTruthy parsed.payout) then
        (.incomplete400, db, [])
      else if !(jsTruthy parsed.id) || !(isValidObjectId (parsed.id.getD "")) then
        (.invalidId201, db, [])
      else
        match findById db (parsed.id.getD "") with
        | none => (.notFound404, db, [])
        | some completion =>
            let afterPending :=
              if completion.status == "pending" then
                match pendingTryBlock scope completion (parsed.email.getD "")
                    db (parsed.id.getD "") with
                | .ok r => r
                | .error _ => (db, [])
              else (db, [])
            match readVar scope "offername" with
            | .ok offernameVal =>
                (.success200 parsed.offerid parsed.payout network
                   (jsOrStr offernameVal ("An offer from " ++ network)),
                 afterPending.1, afterPending.2)
            | .error _ => (.serverError500, afterPending.1, afterPending.2)

/-- A syntactically valid ObjectId used by the concrete postback deliveries. -/
def objectIdCex : String := "aaaaaaaaaaaaaaaaaaaaaaaa"

/-- A pending OfferCompletion awaiting its reward email. -/
def completionPendingCex : CompletionDoc :=
  ⟨"Free Gift Card", some "Claim your card", some "SAVE10", "user@example.com",
   "pending", false⟩

/-- An OfferCompletion that already left the pending state. -/
def completionCompletedCex : CompletionDoc :=
  ⟨"Free Gift Card", some "Claim your card", some "SAVE10", "user@example.com",
   "completed", true⟩

/-- A goose postback query carrying email, payout and the completion id. -/
def gooseQueryCex : PbQuery :=
  ⟨none, none, none, none, none, some "user@example.com", some objectIdCex,
   none, none, some "1.50", none, none, none, none⟩

/-- The completion store before the first delivery. -/
def dbCex : List (String × CompletionDoc) := [(objectIdCex, completionPendingCex)]

/-- The first delivery of the postback. -/
def postbackDelivery1 : PostbackResp × List (String × CompletionDoc) × List EmailMessage :=
  universalPostback "goose" gooseQueryCex dbCex

/-- The second, identical delivery, against the store the first left behind. -/
def postbackDelivery2 : PostbackResp × List (String × CompletionDoc) × List EmailMessage :=
  universalPostback "goose" gooseQueryCex postbackDelivery1.2.1

/-! ## Helper lemmas about round1 -/

theorem round1_tenths (m : ℤ) : round1 ((m : ℚ) / 10) = (m : ℚ) / 10 := by
  unfold round1
  have h : (m : ℚ) / 10 * 10 + 1/2 = (m : ℚ) + 1/2 := by ring
  rw [h, Int.floor_int_add]
  norm_num

theorem round1_intCast (k : ℤ) : round1 (k : ℚ) = (k : ℚ) := by
  have h := round1_tenths (10 * k)
  have h10 : ((10 * k : ℤ) : ℚ) / 10 = (k : ℚ) := by push_cast; ring
  rwa [h10] at h

theorem round1_half_int (k : ℤ) : round1 ((k : ℚ) / 2) = (k : ℚ) / 2 := by
  have h := round1_tenths (5 * k)
  have h5 : ((5 * k : ℤ) : ℚ) / 10 = (k : ℚ) / 2 := by push_cast; ring
  rwa [h5] at h

theorem updateAppRating_valid (st : RatingState) (r : ℚ) (h1 : 1 ≤ r) (h5 : r ≤ 5) :
    (updateAppRating st r).2 =
      ⟨round1 ((st.rating * (st.totalRatings : ℚ) + r) / ((st.totalRatings : ℚ) + 1)),
       st.totalRatings + 1⟩ := by
  unfold updateAppRating
  rw [if_neg]
  push_neg
  exact ⟨by linarith, by linarith, by linarith⟩

/-! ## Scope lemmas for the postback handler -/

theorem readVar_offername (network : String) (p : ParsedPostback) :
    readVar (postbackScope network p) "offername" = .error (.referenceError "offername") := rfl

theorem readVar_code (network : String) (p : ParsedPostback) :
    readVar (postbackScope network p) "code" = .error (.referenceError "code") := rfl

theorem pendingTryBlock_referenceError (network : String) (p : ParsedPostback)
    (completion : CompletionDoc) (toEmail : String)
    (db : List (String × CompletionDoc)) (id : String) :
    pendingTryBlock (postbackScope network p) completion toEmail db id
      = .error (.referenceError "code") := rfl

/-! ## Claim theorems -/

/-- C10: for every postback to a supported network whose parsed data carries a
truthy email and payout, a truthy syntactically valid completion id, and an
existing OfferCompletion, universalPostback never returns its 200 success
body: the success response reads the undeclared identifier offername, the
ReferenceError reaches the outer catch, and the request ends in the 500 error
path instead. -/
theorem universalPostback_never_success (network : String) (q : PbQuery)
    (db : List (String × CompletionDoc)) (p : ParsedPostback) (c : CompletionDoc)
    (hp : parsePostbackData network q = .ok p)
    (he : jsTruthy p.email = true) (hpay : jsTruthy p.payout = true)
    (hid : jsTruthy p.id = true) (hvalid : isValidObjectId (p.id.getD "") = true)
    (hfound : findById db (p.id.getD "") = some c) :
    (universalPostback network q db).1 = .serverError500 := by
  unfold universalPostback
  rw [hp]
  simp only [he, hpay, hid, hvalid, Bool.not_true, Bool.or_self, Bool.false_or,
    Bool.or_false, if_false, ite_false, Bool.false_eq_true]
  rw [hfound]
  simp only [readVar_offername]

/-- C10 witness: a concrete goose delivery with email, payout, a valid id and
a pending completion ends in the 500 path. -/
theorem universalPostback_never_success_witness :
    (universalPostback "goose" gooseQueryCex dbCex).1 = .serverError500 :=
  universalPostback_never_success "goose" gooseQueryCex dbCex
    ⟨none, none, some "user@example.com", some objectIdCex, none, some "1.50", none, none⟩
    completionPendingCex rfl (by decide) (by decide) (by decide) (by decide) (by decide)

/-- C1 (code bug): delivering the same goose postback twice to a completion
that starts pending sends no reward email at all, leaves the completion
pending with isEmailSent false, and answers both deliveries through the 500
error path: the pending branch dies on the undeclared identifier code before
sendEmail and before the status update, and the success response dies on the
undeclared identifier offername.  The claimed behaviour, exactly one email and
final status completed with the second delivery succeeding idempotently, is
the documented intent that the code cannot produce. -/
theorem universalPostback_double_delivery_eval :
    postbackDelivery1.1 = .serverError500 ∧
    postbackDelivery2.1 = .serverError500 ∧
    postbackDelivery1.2.2 = [] ∧
    postbackDelivery2.2.2 = [] ∧
    findById postbackDelivery2.2.1 objectIdCex = some completionPendingCex := by
  refine ⟨?_, ?_, ?_, ?_, ?_⟩ <;> decide

/-- C2 (code bug): a single postback whose completion is pending sends no
email, does not mark the completion completed, and answers 500 instead of the
claimed success; and a postback whose completion is not pending also answers
500 instead of the claimed success, though it indeed sends no email.  Both
divergences stem from the undeclared identifiers code and offername. -/
theorem universalPostback_single_delivery_eval :
    postbackDelivery1.2.2 = [] ∧
    findById postbackDelivery1.2.1 objectIdCex = some completionPendingCex ∧
    postbackDelivery1.1 = .serverError500 ∧
    (universalPostback "goose" gooseQueryCex [(objectIdCex, completionCompletedCex)]).1
      = .serverError500 ∧
    (universalPostback "goose" gooseQueryCex [(objectIdCex, completionCompletedCex)]).2.2
      = [] := by
  refine ⟨?_, ?_, ?_, ?_, ?_⟩ <;> decide

/-- C3: with the geo lookup resolved and the offer found, a lowercased country
code gh, ke or ng whose corresponding link is non-empty yields the 200
response carrying that link; any other country code yields the no-link 404;
and a matching code whose link is empty also yields the no-link 404.  The
successful branch assumes the awaited access-log write succeeds, which claim
C8 examines separately. -/
theorem getOffer_country_resolution (o : OfferDoc) (g : Geo) (ip ua : String) :
    (jsToLower g.country = "gh" → o.links.ghana ≠ "" →
      (getOffer (some o) (some g) ip ua true).1 =
        .resolved ("Offer link for " ++ jsToUpper (jsToLower g.country)) o.links.ghana) ∧
    (jsToLower g.country = "ke" → o.links.kenya ≠ "" →
      (getOffer (some o) (some g) ip ua true).1 =
        .resolved ("Offer link for " ++ jsToUpper (jsToLower g.country)) o.links.kenya) ∧
    (jsToLower g.country = "ng" → o.links.nigeria ≠ "" →
      (getOffer (some o) (some g) ip ua true).1 =
        .resolved ("Offer link for " ++ jsToUpper (jsToLower g.country)) o.links.nigeria) ∧
    (jsToLower g.country ≠ "gh" → jsToLower g.country ≠ "ke" → jsToLower g.country ≠ "ng" →
      (getOffer (some o) (some g) ip ua true).1 = .noLink404) ∧
    (jsToLower g.country = "gh" → o.links.ghana = "" →
      (getOffer (some o) (some g) ip ua true).1 = .noLink404) ∧
    (jsToLower g.country = "ke" → o.links.kenya = "" →
      (getOffer (some o) (some g) ip ua true).1 = .noLink404) ∧
    (jsToLower g.country = "ng" → o.links.nigeria = "" →
      (getOffer (some o) (some g) ip ua true).1 = .noLink404) := by
  refine ⟨?_, ?_, ?_, ?_, ?_, ?_, ?_⟩
  · intro hcc hne
    simp [getOffer, selectLink, jsTruthy, hcc, hne]
  · intro hcc hne
    simp [getOffer, selectLink, jsTruthy, hcc, hne]
  · intro hcc hne
    simp [getOffer, selectLink, jsTruthy, hcc, hne]
  · intro h1 h2 h3
    simp [getOffer, selectLink, jsTruthy, h1, h2, h3]
  · intro hcc hemp
    simp [getOffer, selectLink, jsTruthy, hcc, hemp]
  · intro hcc hemp
    simp [getOffer, selectLink, jsTruthy, hcc, hemp]
  · intro hcc hemp
    simp [getOffer, selectLink, jsTruthy, hcc, hemp]

/-- C3 witness: a request resolved to GH against an offer with a non-empty
ghana link receives that link. -/
theorem getOffer_country_resolution_witness :
    (getOffer (some ⟨"offer1", "Free Data", true, ⟨"https://gh.example", "", ""⟩⟩)
        (some ⟨"GH", "Accra"⟩) "1.2.3.4" "UA" true).1 =
      .resolved ("Offer link for " ++ jsToUpper (jsToLower "GH")) "https://gh.example" :=
  (getOffer_country_resolution ⟨"offer1", "Free Data", true, ⟨"https://gh.example", "", ""⟩⟩
      ⟨"GH", "Accra"⟩ "1.2.3.4" "UA").1 (by decide) (by decide)

/-- C8 counterexample: a request resolved to GH against an offer with a
non-empty ghana link receives the link when the access-log write succeeds, but
when the log write fails the very same request is answered with the 500 branch
and not the resolved link, contradicting the claim that a log failure never
changes the response. -/
theorem getOffer_log_failure_counterexample :
    (getOffer (some ⟨"offer1", "Free Data", true, ⟨"https://gh.example", "", ""⟩⟩)
        (some ⟨"GH", "Accra"⟩) "1.2.3.4" "UA" true).1 =
      .resolved "Offer link for GH" "https://gh.example" ∧
    getOffer (some ⟨"offer1", "Free Data", true, ⟨"https://gh.example", "", ""⟩⟩)
        (some ⟨"GH", "Accra"⟩) "1.2.3.4" "UA" false =
      (.serverError500, []) := by
  constructor <;> decide

/-- C8 (amended): for every successful offer resolution, when the access-log
write succeeds an offer_access event with the offer id, country, city, ip and
user agent is recorded alongside the 200 response; but the logging is not
fire-and-forget: getOffer awaits logOfferActivity, which has no try/catch of
its own, inside its own try block, so a failed log write is answered with the
500 branch instead of the resolved link. -/
theorem getOffer_logging_amended (o : OfferDoc) (g : Geo) (ip ua : String)
    (hres : jsTruthy (selectLink (jsToLower g.country) o.links) = true) :
    getOffer (some o) (some g) ip ua true =
      (.resolved ("Offer link for " ++ jsToUpper (jsToLower g.country))
         ((selectLink (jsToLower g.country) o.links).getD ""),
       [offerAccessEvent o (jsToLower g.country) g.city ip ua]) ∧
    getOffer (some o) (some g) ip ua false = (.serverError500, []) := by
  constructor <;> simp [getOffer, hres]

/-- C8 witness: the amended statement at a concrete resolvable request. -/
theorem getOffer_logging_amended_witness :
    getOffer (some ⟨"offer1", "Free Data", true, ⟨"https://gh.example", "", ""⟩⟩)
        (some ⟨"GH", "Accra"⟩) "1.2.3.4" "UA" true =
      (.resolved
         ("Offer link for " ++ jsToUpper (jsToLower "GH"))
         ((selectLink (jsToLower "GH")
             (OfferLinks.mk "https://gh.example" "" "")).getD ""),
       [offerAccessEvent ⟨"offer1", "Free Data", true, ⟨"https://gh.example", "", ""⟩⟩
          (jsToLower "GH") "Accra" "1.2.3.4" "UA"]) ∧
    getOffer (some ⟨"offer1", "Free Data", true, ⟨"https://gh.example", "", ""⟩⟩)
        (some ⟨"GH", "Accra"⟩) "1.2.3.4" "UA" false = (.serverError500, []) :=
  getOffer_logging_amended ⟨"offer1", "Free Data", true, ⟨"https://gh.example", "", ""⟩⟩
    ⟨"GH", "Accra"⟩ "1.2.3.4" "UA" (by decide)

/-- C9: for every subscriber-creation request whose email is already present
in the store, createSubscriber throws DuplicateSubscriberError, the error
middleware answers with its 409 status, and the store is unchanged. -/
theorem createSubscriber_duplicate_conflict (store : List SubscriberDoc) (email : String)
    (h : ∃ s ∈ store, s.email = email) :
    (createSubscriber store email).1 =
      .thrown (DuplicateSubscriberError "Email is already subscribed") ∧
    errorHandlerStatus (DuplicateSubscriberError "Email is already subscribed") = 409 ∧
    (createSubscriber store email).2 = store := by
  obtain ⟨s, hs, he⟩ := h
  have hfind : (store.find? (fun t => t.email == email)).isSome := by
    rw [List.find?_isSome]
    exact ⟨s, hs, by simp [he]⟩
  obtain ⟨t, ht⟩ := Option.isSome_iff_exists.mp hfind
  unfold createSubscriber
  rw [ht]
  exact ⟨rfl, rfl, rfl⟩

/-- C9 witness: creating a subscriber with an email already stored answers the
conflict and leaves the one-element store unchanged. -/
theorem createSubscriber_duplicate_conflict_witness :
    (createSubscriber [⟨"a@b.com"⟩] "a@b.com").1 =
      .thrown (DuplicateSubscriberError "Email is already subscribed") ∧
    errorHandlerStatus (DuplicateSubscriberError "Email is already subscribed") = 409 ∧
    (createSubscriber [⟨"a@b.com"⟩] "a@b.com").2 = [⟨"a@b.com"⟩] :=
  createSubscriber_duplicate_conflict [⟨"a@b.com"⟩] "a@b.com"
    ⟨⟨"a@b.com"⟩, by decide, rfl⟩

/-- C4 counterexample: four valid rating updates starting from rating 0 and
totalRatings 0.  The sequence 1, 1, 2, 1 stores 1.2 while the arithmetic mean
5/4 rounds to 1.3, and the reordered sequence 1, 1, 1, 2 stores 1.3, so the
stored rating neither equals the rounded mean nor is order-independent. -/
theorem updateAppRating_mean_counterexample :
    (runRatings ⟨0, 0⟩ [1, 1, 2, 1]).rating ≠ round1 ((1 + 1 + 2 + 1) / 4) ∧
    (runRatings ⟨0, 0⟩ [1, 1, 2, 1]).rating ≠ (runRatings ⟨0, 0⟩ [1, 1, 1, 2]).rating := by
  constructor <;> norm_num [runRatings, updateAppRating, round1, List.foldl]

/-- C4 (amended): for three valid integer ratings applied to an item starting
from rating 0 and totalRatings 0, no intermediate rounding error occurs, so
the stored rating equals the arithmetic mean of the three rounded to one
decimal; the right-hand side is symmetric in the three ratings, so the stored
value is the same for every order of the three updates. -/
theorem updateAppRating_three_integer_mean (a b c : ℤ)
    (ha1 : 1 ≤ a) (ha5 : a ≤ 5) (hb1 : 1 ≤ b) (hb5 : b ≤ 5) (hc1 : 1 ≤ c) (hc5 : c ≤ 5) :
    runRatings ⟨0, 0⟩ [(a : ℚ), (b : ℚ), (c : ℚ)] =
      ⟨round1 (((a : ℚ) + b + c) / 3), 3⟩ := by
  have ha1q : (1 : ℚ) ≤ (a : ℚ) := by exact_mod_cast ha1
  have ha5q : (a : ℚ) ≤ 5 := by exact_mod_cast ha5
  have hb1q : (1 : ℚ) ≤ (b : ℚ) := by exact_mod_cast hb1
  have hb5q : (b : ℚ) ≤ 5 := by exact_mod_cast hb5
  have hc1q : (1 : ℚ) ≤ (c : ℚ) := by exact_mod_cast hc1
  have hc5q : (c : ℚ) ≤ 5 := by exact_mod_cast hc5
  have s1 : (updateAppRating ⟨0, 0⟩ (a : ℚ)).2 = ⟨(a : ℚ), 1⟩ := by
    rw [updateAppRating_valid _ _ ha1q ha5q]
    have harg : ((0 : ℚ) * ((0 : ℕ) : ℚ) + (a : ℚ)) / (((0 : ℕ) : ℚ) + 1) = (a : ℚ) := by
      push_cast; ring
    rw [RatingState.mk.injEq, harg, round1_intCast]
    exact ⟨rfl, rfl⟩
  have s2 : (updateAppRating ⟨(a : ℚ), 1⟩ (b : ℚ)).2 = ⟨((a : ℚ) + b) / 2, 2⟩ := by
    rw [updateAppRating_valid _ _ hb1q hb5q]
    have harg : ((a : ℚ) * ((1 : ℕ) : ℚ) + (b : ℚ)) / (((1 : ℕ) : ℚ) + 1)
        = ((a : ℚ) + b) / 2 := by push_cast; ring
    have hround : round1 (((a : ℚ) + b) / 2) = ((a : ℚ) + b) / 2 := by
      have h := round1_half_int (a + b)
      push_cast at h
      exact h
    rw [RatingState.mk.injEq, harg, hround]
    exact ⟨rfl, rfl⟩
  have s3 : (updateAppRating ⟨((a : ℚ) + b) / 2, 2⟩ (c : ℚ)).2 =
      ⟨round1 (((a : ℚ) + b + c) / 3), 3⟩ := by
    rw [updateAppRating_valid _ _ hc1q hc5q]
    have harg : (((a : ℚ) + b) / 2 * ((2 : ℕ) : ℚ) + (c : ℚ)) / (((2 : ℕ) : ℚ) + 1)
        = ((a : ℚ) + b + c) / 3 := by push_cast; ring
    rw [RatingState.mk.injEq, harg]
    exact ⟨rfl, rfl⟩
  show (updateAppRating (updateAppRating (updateAppRating ⟨0, 0⟩ (a : ℚ)).2 (b : ℚ)).2
      (c : ℚ)).2 = _
  rw [s1, s2, s3]

/-- C4 witness: three integer ratings 2, 3, 5 store the rounded mean 10/3. -/
theorem updateAppRating_three_integer_mean_witness :
    runRatings ⟨0, 0⟩ [((2 : ℤ) : ℚ), ((3 : ℤ) : ℚ), ((5 : ℤ) : ℚ)] =
      ⟨round1 ((((2 : ℤ) : ℚ) + ((3 : ℤ) : ℚ) + ((5 : ℤ) : ℚ)) / 3), 3⟩ :=
  updateAppRating_three_integer_mean 2 3 5 (by decide) (by decide) (by decide)
    (by decide) (by decide) (by decide)

/-- C5 (code bug): the uniqueness lookup has no elemMatch, so its three dotted
conditions may be satisfied by different clicks.  In this state every prior
click of the pair ipA, sidA is older than 24 hours, yet the new click from
that pair is counted non-unique because an unrelated recent click from ipB,
sidB satisfies the date condition: totalClicks rises to 3 while uniqueClicks
stays 2, contradicting the claim that such a click increments both. -/
theorem updateAppClicks_stale_pair_eval :
    (∀ c ∈ ([⟨"ipA", "sidA", 0⟩, ⟨"ipB", "sidB", 90000000⟩] : List Click),
        c.ip = "ipA" ∧ c.sessionId = "sidA" → c.date < 172800000 - 24 * 60 * 60 * 1000) ∧
    updateAppClicks ⟨[⟨"ipA", "sidA", 0⟩, ⟨"ipB", "sidB", 90000000⟩], 2, 2⟩
        "ipA" "sidA" 172800000 =
      (⟨[⟨"ipA", "sidA", 0⟩, ⟨"ipB", "sidB", 90000000⟩, ⟨"ipA", "sidA", 172800000⟩], 3, 2⟩,
       false) := by
  constructor <;> decide

/-! ## Usage-increment invariant lemmas -/

theorem runAppUsage_nonneg (st : Option UsageDoc) (h : 0 ≤ optItemsLeft st) (n : ℕ) :
    0 ≤ optItemsLeft (runAppUsage st n) := by
  induction n generalizing st with
  | zero => exact h
  | succ n ih =>
      rw [runAppUsage]
      apply ih
      match st with
      | none => exact h
      | some a =>
          by_cases hle : a.itemsLeft ≤ 0
          · simpa [incrementAppUsage, hle] using h
          · simp only [incrementAppUsage, if_neg hle, optItemsLeft] at h ⊢
            omega

theorem runCouponUsage_nonneg (st : Option UsageDoc) (h : 0 ≤ optItemsLeft st) (n : ℕ) :
    0 ≤ optItemsLeft (runCouponUsage st n) := by
  induction n generalizing st with
  | zero => exact h
  | succ n ih =>
      rw [runCouponUsage]
      apply ih
      match st with
      | none => exact h
      | some a =>
          by_cases hle : a.itemsLeft ≤ 0
          · simpa [incrementCouponUsage, hle] using h
          · simp only [incrementCouponUsage, if_neg hle, optItemsLeft] at h ⊢
            omega

/-- C6: for a catalog item with nonnegative itemsLeft, a usage-increment call
with itemsLeft at most 0 is rejected and leaves the document unchanged, a call
with itemsLeft at least 1 decrements itemsLeft and increments usedToday, and
after any number of calls itemsLeft is still nonnegative; the same holds for
the duplicated coupon handler. -/
theorem incrementUsage_itemsLeft_invariant (a : UsageDoc) (n : ℕ) (h0 : 0 ≤ a.itemsLeft) :
    (a.itemsLeft ≤ 0 →
      incrementAppUsage (some a) = (.noItemsLeft400, some a) ∧
      incrementCouponUsage (some a) = (.noItemsLeft400, some a)) ∧
    (1 ≤ a.itemsLeft →
      incrementAppUsage (some a) = (.incremented200, some ⟨a.itemsLeft - 1, a.usedToday + 1⟩) ∧
      incrementCouponUsage (some a) =
        (.incremented200, some ⟨a.itemsLeft - 1, a.usedToday + 1⟩)) ∧
    0 ≤ optItemsLeft (runAppUsage (some a) n) ∧
    0 ≤ optItemsLeft (runCouponUsage (some a) n) := by
  refine ⟨?_, ?_, runAppUsage_nonneg (some a) h0 n, runCouponUsage_nonneg (some a) h0 n⟩
  · intro hle
    constructor <;> simp [incrementAppUsage, incrementCouponUsage, hle]
  · intro hge
    have hgt : ¬ a.itemsLeft ≤ 0 := by omega
    constructor <;> simp [incrementAppUsage, incrementCouponUsage, hgt]

/-- C6 witness: an item with itemsLeft 1 keeps a nonnegative stock through
three calls, the first call decrements to 0, and a call at 0 is rejected
unchanged. -/
theorem incrementUsage_itemsLeft_invariant_witness :
    0 ≤ optItemsLeft (runAppUsage (some ⟨1, 0⟩) 3) ∧
    0 ≤ optItemsLeft (runCouponUsage (some ⟨1, 0⟩) 3) :=
  ⟨(incrementUsage_itemsLeft_invariant ⟨1, 0⟩ 3 (by decide)).2.2.1,
   (incrementUsage_itemsLeft_invariant ⟨1, 0⟩ 3 (by decide)).2.2.2⟩

/-- C7 (code bug): getLimitedStockApps does not apply both bounds.  Its query
object literal assigns the key itemsLeft twice, so the upper bound lte
maxItemsLeft is dropped and the effective filter is verified together with
itemsLeft gt 0: a verified app with itemsLeft 10 matches the filter at the
default threshold 5, contradicting the claim that an item above the threshold
is never returned. -/
theorem getLimitedStockApps_filter_drops_upper_bound :
    limitedStockMatches 5 true 10 = true ∧
    (∀ (m x : ℚ) (v : Bool), limitedStockMatches m v x = (v && decide ((0 : ℚ) < x))) := by
  constructor
  · decide
  · intro m x v
    simp [limitedStockMatches, limitedStockItemsLeftConds, objInsert, NumCond.holds]
